/-
Verification of the authentication/session core of the
payload-react-router7-auth repository.

The embedding models the client-side code:
  * the Zod validation schemas (LoginSchema in routes/login.tsx,
    RegisterSchema in routes/register.tsx), including Zod's semantics of
    running checks and transforms in declaration order;
  * the gateway helpers of app/utils/payload-helper.ts (checkUser,
    loginUser, logoutUser, createUser) as an oracle record of backend
    outcomes, each of which may also throw (fetch / resp.json failure);
  * the three route modules' loader and action functions
    (routes/home.tsx, routes/login.tsx, routes/register.tsx) as pure
    functions from the form input and the backend oracle to a result
    together with the trace of gateway calls they issue.
-/
import Mathlib

/-! ## Data model -/

/-- A resolved user identity as returned by the backend
(`{id, email, firstName, lastName, roles}`). -/
structure User where
  id : String
  email : String
  firstName : String
  lastName : String
  roles : List String
deriving Repr, DecidableEq

/-- A thrown JavaScript value, as discriminated by the catch blocks in
routes/login.tsx and routes/register.tsx (`error instanceof Error` with a
`message`, versus any other thrown value). -/
inductive Thrown where
  | jsError (message : String)
  | other
deriving Repr, DecidableEq

/-! ## String helpers

Executable (structurally recursive) models of the JavaScript string
operations the validator relies on. -/

/-- A JavaScript whitespace character as removed by
`String.prototype.trim` (the ASCII fragment plus NBSP; the rarer Unicode
space characters are not used by any claim). -/
def isJsWhitespace (c : Char) : Bool :=
  c = ' ' || c = '\t' || c = '\n' || c = '\r' ||
  c = Char.ofNat 11 || c = Char.ofNat 12 || c = Char.ofNat 160

/-- `String.prototype.trim`: remove leading and trailing whitespace. -/
def jsTrim (s : String) : String :=
  .mk (((s.toList.dropWhile isJsWhitespace).reverse.dropWhile isJsWhitespace).reverse)

/-- Split a character list on a separator character; the list of groups
is never empty (splitting the empty list gives one empty group). -/
def splitOnChar (sep : Char) : List Char → List (List Char)
  | [] => [[]]
  | c :: rest =>
    match splitOnChar sep rest with
    | [] => [[]]
    | g :: gs => if c = sep then [] :: g :: gs else (c :: g) :: gs

/-- Split a string on a separator character. -/
def splitStr (sep : Char) (s : String) : List String :=
  (splitOnChar sep s.toList).map .mk

/-! ## Zod validation schemas

Zod stores the checks and transforms of a string schema in declaration
order and applies them left to right to a running value.  Hence in
`z.string().email().trim()` the email regex is tested against the raw
input and only afterwards is the value trimmed, and in
`z.string().min(1).trim()` the length is measured before trimming. -/

/-- A character allowed anywhere in the local part of Zod's email regex:
`[A-Z0-9_'+\-\.]` (case-insensitive), i.e. alphanumerics, underscore,
apostrophe, plus, hyphen, dot. -/
def isEmailLocalChar (c : Char) : Bool :=
  c.isAlpha || c.isDigit || c = '_' || c = '+' || c = '-' || c = '.' || c = Char.ofNat 39

/-- A character allowed as the final character of the local part:
`[A-Z0-9_+-]` (no dot, no apostrophe). -/
def isEmailLocalEndChar (c : Char) : Bool :=
  c.isAlpha || c.isDigit || c = '_' || c = '+' || c = '-'

/-- First character of a domain label: `[A-Z0-9]`. -/
def isLabelStartChar (c : Char) : Bool :=
  c.isAlpha || c.isDigit

/-- Subsequent characters of a domain label: `[A-Z0-9-]`. -/
def isLabelChar (c : Char) : Bool :=
  c.isAlpha || c.isDigit || c = '-'

/-- Does the character list contain two consecutive dots (the regex's
`(?!.*\.\.)` negative lookahead)? -/
def hasDoubleDot : List Char → Bool
  | c1 :: c2 :: rest => (c1 = '.' && c2 = '.') || hasDoubleDot (c2 :: rest)
  | _ => false

/-- The local part `([A-Z0-9_'+\-\.]*)[A-Z0-9_+-]` with the `(?!\.)`
lookahead: nonempty, every character in the local class, the last
character in the restricted class, and not starting with a dot. -/
def validEmailLocal (l : String) : Bool :=
  (match l.toList.head? with
   | some h => decide (h ≠ '.')
   | none => false) &&
  l.toList.all isEmailLocalChar &&
  (match l.toList.getLast? with
   | some c => isEmailLocalEndChar c
   | none => false)

/-- A non-final domain label `[A-Z0-9][A-Z0-9\-]*`. -/
def validDomainLabel (l : String) : Bool :=
  match l.toList with
  | [] => false
  | c :: rest => isLabelStartChar c && rest.all isLabelChar

/-- The final domain label `[A-Z]{2,}`. -/
def validTld (l : String) : Bool :=
  decide (2 ≤ l.length) && l.toList.all Char.isAlpha

/-- The domain `([A-Z0-9][A-Z0-9\-]*\.)+[A-Z]{2,}`: at least two
dot-separated labels, all but the last a plain label, the last a TLD. -/
def validEmailDomain (d : String) : Bool :=
  let labels := splitStr '.' d
  decide (2 ≤ labels.length) &&
  labels.dropLast.all validDomainLabel &&
  (match labels.getLast? with
   | some t => validTld t
   | none => false)

/-- Zod's email check
`/^(?!\.)(?!.*\.\.)([A-Z0-9_'+\-\.]*)[A-Z0-9_+-]@([A-Z0-9][A-Z0-9\-]*\.)+[A-Z]{2,}$/i`
applied to the raw (untrimmed) input, as `.email()` runs before `.trim()`. -/
def zodEmailCheck (s : String) : Bool :=
  !hasDoubleDot s.toList &&
  (match splitStr '@' s with
   | [l, d] => validEmailLocal l && validEmailDomain d
   | _ => false)

/-- `z.string().email().trim()`: the field must be present, the raw value
must pass the email check, and the parsed value is the trimmed string. -/
def parseEmailField : Option String → Option String
  | none => none
  | some s => if zodEmailCheck s then some (jsTrim s) else none

/-- `z.string().min(6)`: present and of length at least 6; no transform. -/
def parsePasswordField : Option String → Option String
  | none => none
  | some s => if 6 ≤ s.length then some s else none

/-- `z.string().min(1).trim()`: present, nonempty before trimming, and
the parsed value is the trimmed string. -/
def parseNameField : Option String → Option String
  | none => none
  | some s => if 1 ≤ s.length then some (jsTrim s) else none

/-- The raw login form, `Object.fromEntries(formData)` restricted to the
fields LoginSchema looks at; a missing field is `none`. -/
structure LoginForm where
  email : Option String
  password : Option String
deriving Repr, DecidableEq

/-- Validated login credentials. -/
structure Credentials where
  email : String
  password : String
deriving Repr, DecidableEq

/-- `LoginSchema.safeParse` of routes/login.tsx: both fields must parse. -/
def LoginSchema.safeParse (f : LoginForm) : Option Credentials := do
  let e ← parseEmailField f.email
  let p ← parsePasswordField f.password
  pure ⟨e, p⟩

/-- The raw registration form restricted to the fields RegisterSchema
looks at. -/
structure RegisterForm where
  email : Option String
  password : Option String
  firstName : Option String
  lastName : Option String
deriving Repr, DecidableEq

/-- Validated registration data. -/
structure RegisterData where
  email : String
  password : String
  firstName : String
  lastName : String
deriving Repr, DecidableEq

/-- `RegisterSchema.safeParse` of routes/register.tsx. -/
def RegisterSchema.safeParse (f : RegisterForm) : Option RegisterData := do
  let e ← parseEmailField f.email
  let p ← parsePasswordField f.password
  let fn ← parseNameField f.firstName
  let ln ← parseNameField f.lastName
  pure ⟨e, p, fn, ln⟩


/-! ## The Session Gateway as an oracle

Each helper of app/utils/payload-helper.ts performs one fetch and parses
the response body; both the fetch and the `resp.json()` parse can throw.
`Backend` records, per gateway operation, the outcome the backend would
produce for the current request: either a thrown value or the parsed
JSON, restricted to the fields the client code reads. -/

/-- The parsed body of `POST /api/users/login` as read by the client:
`errors` (an array of objects with a `message`, kept as the list of
messages; `some []` is a present-but-empty, hence truthy, array), `user`,
`token` and `expires`.  A non-object body such as `null` is the value
with every field `none`. -/
structure LoginResp where
  errors : Option (List String)
  user : Option User
  token : Option String
  expires : Option String
deriving Repr, DecidableEq

/-- The parsed body of `POST /api/users/logout` as read by home.tsx:
only the `errors` field is inspected. -/
structure LogoutResp where
  errors : Option (List String)
deriving Repr, DecidableEq

/-- The parsed body of `POST /api/users` (createUser) as read by
register.tsx: only the `errors` field is inspected. -/
structure CreateResp where
  errors : Option (List String)
deriving Repr, DecidableEq

/-- The backend outcomes for one inbound request: what each of
`checkUser`, `loginUser`, `logoutUser`, `createUser` and the home
loader's user-listing fetch would return (or throw) if invoked. -/
structure Backend where
  me : Except Thrown (Option User)
  login : Except Thrown LoginResp
  logout : Except Thrown LogoutResp
  create : Except Thrown CreateResp
  listUsers : Except Thrown (Option (List User))
deriving Repr

/-- A backend call issued by a controller, with the arguments the client
sends (credential-bearing calls record the submitted values). -/
inductive GatewayCall where
  | resolveCurrentUser
  | startSession (email password : String)
  | endSession
  | createAccount (email password firstName lastName : String)
  | listUsers
deriving Repr, DecidableEq

/-! ## Controller results -/

/-- The result of a route action: a returned `{ error: ... }` object
(whose message may itself be `undefined`), a redirect `Response`
carrying an optional `Set-Cookie` header, the bare `undefined` of a
fall-through return, or an uncaught thrown value escaping the action. -/
inductive ActionResult where
  | err (message : Option String)
  | redirect (location : String) (setCookie : Option String)
  | undef
  | thrown (e : Thrown)
deriving Repr, DecidableEq

/-- The result of the home loader: a redirect, the rendered page data
`{user, allUsers, error: null}`, or an uncaught thrown value. -/
inductive HomeLoaderResult where
  | redirect (location : String)
  | page (user : User) (allUsers : List User)
  | thrown (e : Thrown)
deriving Repr, DecidableEq

/-- The result of the login/register loaders: a redirect, the rendered
form data `{user: null, error: null}`, or an uncaught thrown value. -/
inductive AuthLoaderResult where
  | redirect (location : String)
  | form
  | thrown (e : Thrown)
deriving Repr, DecidableEq

/-- JavaScript template interpolation `${x}` of a possibly-undefined
string. -/
def jsShowOpt : Option String → String
  | some s => s
  | none => "undefined"

/-- The session cookie directive built by the login and register actions:
`payload-token=<token>; path=/; expires=<date>`. -/
def sessionCookieDirective (token expires : String) : String :=
  "payload-token=" ++ token ++ "; path=/; expires=" ++ expires

/-- The logout cookie directive of home.tsx, clearing the cookie with the
Unix-epoch expiry. -/
def logoutCookieDirective : String :=
  "payload-token=; path=/; expires=Thu, 01 Jan 1970 00:00:00 GMT"

/-- The value a `catch (error)` block of login.tsx or register.tsx
returns: the `Error`'s message, or the generic message for a non-`Error`
thrown value. -/
def jsCatch : Thrown → ActionResult
  | .jsError m => .err (some m)
  | .other => .err (some "An unknown error occurred")

/-! ## Route controllers

Each controller is a function of the (already received) form fields, the
backend oracle, and — where the code calls `new Date(x).toUTCString()` —
a parameter `fmt` standing for that JavaScript date conversion, applied
to the possibly-absent `expires` field.  Each returns its result paired
with the trace of gateway calls it issued, in order. -/

namespace Home

/-- The home loader (routes/home.tsx): resolve the current user via
`checkUser` (no surrounding handler — a throw escapes), redirect to
`/login` when there is none, otherwise fetch the user listing (a throw
escapes likewise; a falsy body becomes `[]`) and render. -/
def loader (b : Backend) : HomeLoaderResult × List GatewayCall :=
  match b.me with
  | .error t => (.thrown t, [.resolveCurrentUser])
  | .ok none => (.redirect "/login", [.resolveCurrentUser])
  | .ok (some u) =>
    match b.listUsers with
    | .error t => (.thrown t, [.resolveCurrentUser, .listUsers])
    | .ok docs => (.page u (docs.getD []), [.resolveCurrentUser, .listUsers])

/-- The home (logout) action (routes/home.tsx): call `logoutUser` (no
surrounding handler), return the first error message when the body has a
truthy `errors` field, otherwise redirect to `/login` clearing the
cookie. -/
def action (b : Backend) : ActionResult × List GatewayCall :=
  match b.logout with
  | .error t => (.thrown t, [.endSession])
  | .ok resp =>
    match resp.errors with
    | some msgs => (.err msgs.head?, [.endSession])
    | none => (.redirect "/login" (some logoutCookieDirective), [.endSession])

end Home

namespace Login

/-- The login loader (routes/login.tsx): redirect home when `checkUser`
resolves a user, else render the form; no surrounding handler. -/
def loader (b : Backend) : AuthLoaderResult × List GatewayCall :=
  match b.me with
  | .error t => (.thrown t, [.resolveCurrentUser])
  | .ok (some _) => (.redirect "/", [.resolveCurrentUser])
  | .ok none => (.form, [.resolveCurrentUser])

/-- The login action (routes/login.tsx): validate with LoginSchema
(failure returns the generic validation error without any backend call),
then call `loginUser`; a truthy `errors` field returns its first message,
a truthy `user` field redirects home setting the session cookie, and a
body with neither falls through to `undefined`.  The whole body is
wrapped in try/catch, so a thrown value becomes an error result. -/
def action (fmt : Option String → String) (f : LoginForm) (b : Backend) :
    ActionResult × List GatewayCall :=
  match LoginSchema.safeParse f with
  | none => (.err (some "Invalid form data"), [])
  | some creds =>
    match b.login with
    | .error t => (jsCatch t, [.startSession creds.email creds.password])
    | .ok resp =>
      match resp.errors with
      | some msgs => (.err msgs.head?, [.startSession creds.email creds.password])
      | none =>
        match resp.user with
        | some _ =>
          (.redirect "/"
            (some (sessionCookieDirective (jsShowOpt resp.token) (fmt resp.expires))),
           [.startSession creds.email creds.password])
        | none => (.undef, [.startSession creds.email creds.password])

end Login

namespace Register

/-- The register loader (routes/register.tsx): identical logic to the
login loader. -/
def loader (b : Backend) : AuthLoaderResult × List GatewayCall :=
  match b.me with
  | .error t => (.thrown t, [.resolveCurrentUser])
  | .ok (some _) => (.redirect "/", [.resolveCurrentUser])
  | .ok none => (.form, [.resolveCurrentUser])

/-- The register action (routes/register.tsx): validate with
RegisterSchema, call `createUser`; a truthy `errors` field throws
`Error(errors[0]?.message)` (whose message defaults to the empty string
when the array is empty), caught by the surrounding catch — no login is
attempted.  Otherwise call `loginUser` with the parsed email and
password; its `errors` likewise throw, a truthy `user` redirects home
setting the session cookie, and neither falls through to `undefined`. -/
def action (fmt : Option String → String) (f : RegisterForm) (b : Backend) :
    ActionResult × List GatewayCall :=
  match RegisterSchema.safeParse f with
  | none => (.err (some "Invalid form data"), [])
  | some r =>
    let createCall := GatewayCall.createAccount r.email r.password r.firstName r.lastName
    match b.create with
    | .error t => (jsCatch t, [createCall])
    | .ok cresp =>
      match cresp.errors with
      | some msgs => (.err (some (msgs.head?.getD "")), [createCall])
      | none =>
        let loginCall := GatewayCall.startSession r.email r.password
        match b.login with
        | .error t => (jsCatch t, [createCall, loginCall])
        | .ok resp =>
          match resp.errors with
          | some msgs => (.err (some (msgs.head?.getD "")), [createCall, loginCall])
          | none =>
            match resp.user with
            | some _ =>
              (.redirect "/"
                (some (sessionCookieDirective (jsShowOpt resp.token) (fmt resp.expires))),
               [createCall, loginCall])
            | none => (.undef, [createCall, loginCall])

end Register

/-! ## Session Cookie Codec -/

/-- `checkUser` and `logoutUser` read the inbound session state by
forwarding the raw Cookie header verbatim:
`request.headers.get("Cookie") || ""`. -/
def extractCookieHeader (cookieHeader : Option String) : String :=
  cookieHeader.getD ""

/-- The cookie name of a directive: everything before the first `=`. -/
def cookieNameOfDirective (d : String) : String :=
  .mk (d.toList.takeWhile (fun c => c ≠ '='))

/-- The value of the named attribute (or of the leading name=value pair)
of a cookie directive: split on `;`, strip leading spaces, take the
first segment whose name matches. -/
def directiveAttr (name : String) (d : String) : Option String :=
  (splitStr ';' d).findSome? fun seg =>
    let cs := seg.toList.dropWhile (fun c => c = ' ')
    let pre := name.toList ++ ['=']
    if pre.isPrefixOf cs then some (.mk (cs.drop pre.length)) else none

/-- Modelled from the spec: the cookie pair a browser holding the
Set-Cookie directive sends on the next request — the repository itself
never parses the directive (checkUser only forwards the raw Cookie
header), so the carrier between `encode` and `extract` is modelled here
as the directive's leading name=value pair, i.e. everything before the
first `;`. -/
def cookiePairOfDirective (d : String) : String :=
  .mk (d.toList.takeWhile (fun c => c ≠ ';'))

/-- Modelled from the spec: recovering the Session Token value from the
extracted cookie pair (`extract ... yields back the same token value`):
strip the `payload-token=` name prefix, absent when the pair is not the
session cookie. -/
def tokenValueOfPair (p : String) : Option String :=
  let pre := "payload-token=".toList
  if pre.isPrefixOf p.toList then some (.mk (p.toList.drop pre.length)) else none

/-- The codec round trip: encode a token and expiry into the session
cookie directive, carry it to the next request, extract the raw cookie
(as checkUser does) and recover the token value. -/
def cookieRoundTrip (t e : String) : Option String :=
  tokenValueOfPair
    (extractCookieHeader (some (cookiePairOfDirective (sessionCookieDirective t e))))

/-- The `Set-Cookie` header of an action result, when one is present. -/
def ActionResult.setCookieHeader : ActionResult → Option String
  | .redirect _ c => c
  | _ => none

/-- A backend oracle where every operation throws a non-`Error` value; a
convenient base for concrete instantiations. -/
def throwingBackend : Backend :=
  { me := .error .other, login := .error .other, logout := .error .other,
    create := .error .other, listUsers := .error .other }

/-- A sample resolved user. -/
def sampleUser : User :=
  ⟨"1", "a@b.com", "Jane", "Doe", ["admin"]⟩

/-! ## Helper lemmas -/

theorem takeWhile_append_of_all {p : Char → Bool} {xs : List Char}
    (h : ∀ c ∈ xs, p c = true) (ys : List Char) :
    (xs ++ ys).takeWhile p = xs ++ ys.takeWhile p := by
  induction xs with
  | nil => simp
  | cons c cs ih =>
    have hc : p c = true := h c (by simp)
    simp only [List.cons_append, List.takeWhile_cons, hc, if_true]
    rw [ih (fun d hd => h d (by simp [hd]))]

theorem splitOnChar_ne_nil (sep : Char) (l : List Char) : splitOnChar sep l ≠ [] := by
  cases l with
  | nil => simp [splitOnChar]
  | cons c rest =>
    simp only [splitOnChar]
    rcases hs : splitOnChar sep rest with _ | ⟨g, gs⟩
    · simp
    · by_cases hc : c = sep <;> simp [hc]

/-- `l₁` is a Boolean prefix of `l₁ ++ l₂`. -/
theorem isPrefixOf_self_append (l₁ l₂ : List Char) : l₁.isPrefixOf (l₁ ++ l₂) = true := by
  rw [List.isPrefixOf_iff_prefix]
  exact List.prefix_append _ _

/-- The cookie pair of an encoded session cookie whose token contains no
`;`: the name prefix followed by the token. -/
theorem cookiePair_sessionCookie (t e : String) (h : ';' ∉ t.toList) :
    (cookiePairOfDirective (sessionCookieDirective t e)).toList
      = "payload-token=".toList ++ t.toList := by
  have hd : (sessionCookieDirective t e).toList
      = "payload-token=".toList
          ++ (t.toList ++ (';' :: (" path=/; expires=".toList ++ e.toList))) := by
    show (("payload-token=" ++ t ++ "; path=/; expires=" ++ e : String)).data = _
    simp [String.data_append, List.append_assoc, String.toList]
  have hP : ∀ c ∈ "payload-token=".toList, (decide (c ≠ ';') : Bool) = true := by decide
  have ht : ∀ c ∈ t.toList, (decide (c ≠ ';') : Bool) = true := by
    intro c hc
    simp only [decide_eq_true_eq]
    intro hcc
    exact h (hcc ▸ hc)
  simp only [cookiePairOfDirective, String.toList]
  show ((sessionCookieDirective t e).toList.takeWhile fun c => decide (c ≠ ';')) = _
  rw [hd, takeWhile_append_of_all hP, takeWhile_append_of_all ht]
  simp [List.takeWhile_cons]

/-- C9: the claim states that encoding any token value and expiry into
the session cookie directive and extracting the cookie back from a
request carrying it yields the same token value.  This fails: the
encoder performs no escaping, so for the token `a;b` the cookie pair
ends at the embedded `;` and extraction recovers only `a`. -/
theorem c9_counterexample :
    cookieRoundTrip "a;b" "Thu, 01 Jan 2026 00:00:00 GMT" = some "a" ∧
    some "a" ≠ some ("a;b" : String) := by decide

/-- C9 (amended): for every token value containing no `;` and every
expiry instant, encoding into the session cookie directive and then
extracting from a request carrying it yields back the same token value;
tokens containing `;` are truncated since the encoder does not escape. -/
theorem c9_roundtrip (t e : String) (h : ';' ∉ t.toList) :
    cookieRoundTrip t e = some t := by
  have hpair := cookiePair_sessionCookie t e h
  simp only [cookieRoundTrip, extractCookieHeader, Option.getD_some, tokenValueOfPair, hpair,
    isPrefixOf_self_append, if_true, List.drop_left]
  rfl

/-- C9 witness: the round trip at a concrete token and expiry. -/
theorem c9_roundtrip_witness :
    cookieRoundTrip "tok123" "Thu, 01 Jan 2026 00:00:00 GMT" = some "tok123" :=
  c9_roundtrip "tok123" "Thu, 01 Jan 2026 00:00:00 GMT" (by decide)

/-- C1: the claim states that every logout submission clears the session
cookie regardless of whether the backend reports success or a structured
failure.  This fails: when `endSession` reports a structured failure the
home action returns the error message and sets no cookie at all. -/
theorem c1_counterexample :
    (Home.action { throwingBackend with logout := .ok ⟨some ["session end failed"]⟩ }).1
        = .err (some "session end failed") ∧
    ActionResult.setCookieHeader
        (Home.action { throwingBackend with logout := .ok ⟨some ["session end failed"]⟩ }).1
      = none := by
  constructor <;> rfl

/-- C1 (amended): the home action clears the session cookie by setting
its expiry to the Unix epoch exactly when the backend's `endSession`
call returns without a structured failure; on a structured failure it
surfaces the first error message and sets no cookie. -/
theorem c1_logout_cookie (b : Backend) (resp : LogoutResp) (h : b.logout = .ok resp) :
    (resp.errors = none →
      (Home.action b).1 = .redirect "/login" (some logoutCookieDirective)) ∧
    (∀ msgs, resp.errors = some msgs →
      (Home.action b).1 = .err msgs.head? ∧
      ActionResult.setCookieHeader (Home.action b).1 = none) ∧
    directiveAttr "expires" logoutCookieDirective
      = some "Thu, 01 Jan 1970 00:00:00 GMT" := by
  refine ⟨fun he => ?_, fun msgs hm => ?_, by decide⟩
  · simp [Home.action, h, he]
  · simp [Home.action, h, hm, ActionResult.setCookieHeader]

/-- C1 witness: the success branch at a concrete backend. -/
theorem c1_logout_cookie_witness :
    (Home.action { throwingBackend with logout := .ok ⟨none⟩ }).1
      = .redirect "/login" (some logoutCookieDirective) :=
  (c1_logout_cookie { throwingBackend with logout := .ok ⟨none⟩ } ⟨none⟩ rfl).1 rfl

/-- C2: the claim states that a transport failure talking to the backend
is caught at every controller boundary and never propagates; in
particular for the home, login and register loaders.  This fails: the
loaders have no handler, so a thrown fetch error escapes the home
loader unchanged. -/
theorem c2_counterexample :
    (Home.loader { throwingBackend with me := .error (.jsError "fetch failed") }).1
      = .thrown (.jsError "fetch failed") := by
  rfl

/-- C2 (amended): a transport failure is caught and degraded to an error
result only inside the login and register form actions (the thrown
`Error`'s message, or the generic message for a non-`Error` value); in
the home, login and register loaders and in the home logout action there
is no handler and the failure propagates out of the controller. -/
theorem c2_transport_boundary (t : Thrown) (b : Backend) (fmt : Option String → String)
    (f : LoginForm) (g : RegisterForm) :
    (b.me = .error t →
      (Home.loader b).1 = .thrown t ∧ (Login.loader b).1 = .thrown t ∧
      (Register.loader b).1 = .thrown t) ∧
    (b.logout = .error t → (Home.action b).1 = .thrown t) ∧
    (b.login = .error t → LoginSchema.safeParse f ≠ none →
      (Login.action fmt f b).1 = jsCatch t) ∧
    (b.create = .error t → RegisterSchema.safeParse g ≠ none →
      (Register.action fmt g b).1 = jsCatch t) ∧
    jsCatch .other = .err (some "An unknown error occurred") ∧
    (∀ m, jsCatch (.jsError m) = .err (some m)) := by
  refine ⟨fun hm => ?_, fun hl => ?_, fun hl hf => ?_, fun hc hg => ?_, rfl, fun m => rfl⟩
  · exact ⟨by simp [Home.loader, hm], by simp [Login.loader, hm], by simp [Register.loader, hm]⟩
  · simp [Home.action, hl]
  · rcases hp : LoginSchema.safeParse f with _ | creds
    · exact absurd hp hf
    · simp [Login.action, hp, hl]
  · rcases hp : RegisterSchema.safeParse g with _ | r
    · exact absurd hp hg
    · simp [Register.action, hp, hc]

/-- C2 witness: a non-`Error` transport failure in the home loader and
in the login action at concrete inputs. -/
theorem c2_transport_boundary_witness :
    (Home.loader throwingBackend).1 = .thrown .other ∧
    (Login.action jsShowOpt ⟨some "a@b.com", some "123456"⟩ throwingBackend).1
      = jsCatch .other := by
  have h := c2_transport_boundary .other throwingBackend jsShowOpt
    ⟨some "a@b.com", some "123456"⟩ ⟨some "a@b.com", some "123456", some "Jane", some "Doe"⟩
  exact ⟨(h.1 rfl).1, h.2.2.1 rfl (by decide)⟩

/-- Prefixing a space always fails the email check: the space lands in
the local part (or makes the shape invalid), and a space is not an email
character. -/
theorem zodEmailCheck_space_prefix (s : String) : zodEmailCheck (" " ++ s) = false := by
  have hl : (" " ++ s).data = ' ' :: s.data := by
    simp [String.data_append]
  rcases hsp : splitOnChar '@' s.data with _ | ⟨g, gs⟩
  · exact absurd hsp (splitOnChar_ne_nil _ _)
  · have hsp2 : splitOnChar '@' ((" " ++ s).toList) = (' ' :: g) :: gs := by
      simp only [String.toList]
      rw [hl]
      simp [splitOnChar, hsp]
    simp only [zodEmailCheck, splitStr, hsp2, List.map]
    rcases gs with _ | ⟨d, gs2⟩
    · simp
    · rcases gs2 with _ | ⟨d2, gs3⟩
      · simp [validEmailLocal, isEmailLocalChar]
      · simp

/-- C3: the claim states that the validator trims the email before the
address-grammar check (accepting a space-padded valid address) and
rejects whitespace-only names.  Both parts fail: `a@b.com` is a valid
address, yet its space-padded form is rejected by LoginSchema, and a
whitespace-only firstName is accepted by RegisterSchema, parsing to the
empty string. -/
theorem c3_counterexample :
    zodEmailCheck "a@b.com" = true ∧
    LoginSchema.safeParse ⟨some " a@b.com ", some "123456"⟩ = none ∧
    RegisterSchema.safeParse ⟨some "a@b.com", some "123456", some " ", some "Doe"⟩
      = some ⟨"a@b.com", "123456", "", "Doe"⟩ := by
  refine ⟨by decide, by decide, by decide⟩

/-- C3 (amended): the validator runs the email grammar check on the raw
untrimmed input and trims only afterwards — so a space-padded address is
always rejected, while an address passing the raw check parses to its
trimmed form; for registration, firstName and lastName are accepted
exactly when nonempty before trimming, so a whitespace-only name is
accepted and parses to its (possibly empty) trimmed form. -/
theorem c3_validator_order (s p fn ln : String)
    (hs : zodEmailCheck s = true) (hp : 6 ≤ p.length)
    (hfn : 1 ≤ fn.length) (hln : 1 ≤ ln.length) :
    LoginSchema.safeParse ⟨some s, some p⟩ = some ⟨jsTrim s, p⟩ ∧
    RegisterSchema.safeParse ⟨some s, some p, some fn, some ln⟩
      = some ⟨jsTrim s, p, jsTrim fn, jsTrim ln⟩ ∧
    (∀ s', LoginSchema.safeParse ⟨some (" " ++ s'), some p⟩ = none) := by
  refine ⟨?_, ?_, fun s' => ?_⟩
  · simp [LoginSchema.safeParse, parseEmailField, parsePasswordField, hs, hp]
  · simp [RegisterSchema.safeParse, parseEmailField, parsePasswordField, parseNameField,
      hs, hp, hfn, hln]
  · simp [LoginSchema.safeParse, parseEmailField, zodEmailCheck_space_prefix s']

/-- C3 witness: concrete instantiation, including the whitespace-only
name parsing to the empty string and a rejected space-padded address. -/
theorem c3_validator_order_witness :
    RegisterSchema.safeParse ⟨some "a@b.com", some "123456", some " ", some "Doe"⟩
        = some ⟨jsTrim "a@b.com", "123456", jsTrim " ", jsTrim "Doe"⟩ ∧
    LoginSchema.safeParse ⟨some (" " ++ "a@b.com"), some "123456"⟩ = none := by
  have h := c3_validator_order "a@b.com" "123456" " " "Doe"
    (by decide) (by decide) (by decide) (by decide)
  exact ⟨h.2.1, h.2.2 "a@b.com"⟩

/-- C4: on a valid registration submission the register action first
calls createAccount; a structured createAccount failure surfaces its
message without any startSession call; on createAccount success the
action immediately calls startSession with the same parsed email and
password, a failure of which surfaces the login-step message, while a
success sets the session cookie and redirects to home. -/
theorem c4_register_flow (fmt : Option String → String) (g : RegisterForm) (b : Backend)
    (r : RegisterData) (hg : RegisterSchema.safeParse g = some r) :
    (∀ cresp msgs, b.create = .ok cresp → cresp.errors = some msgs →
      Register.action fmt g b
        = (.err (some (msgs.head?.getD "")),
           [.createAccount r.email r.password r.firstName r.lastName])) ∧
    (∀ cresp, b.create = .ok cresp → cresp.errors = none →
      (Register.action fmt g b).2
          = [.createAccount r.email r.password r.firstName r.lastName,
             .startSession r.email r.password] ∧
      (∀ resp msgs, b.login = .ok resp → resp.errors = some msgs →
        (Register.action fmt g b).1 = .err (some (msgs.head?.getD ""))) ∧
      (∀ resp u, b.login = .ok resp → resp.errors = none → resp.user = some u →
        (Register.action fmt g b).1
          = .redirect "/"
              (some (sessionCookieDirective (jsShowOpt resp.token) (fmt resp.expires))))) := by
  refine ⟨fun cresp msgs hc hm => ?_,
    fun cresp hc hce => ⟨?_, fun resp msgs hb hm => ?_, fun resp u hb he hu => ?_⟩⟩
  · simp [Register.action, hg, hc, hm]
  · cases hbl : b.login with
    | error tl => simp [Register.action, hg, hc, hce, hbl]
    | ok resp =>
      cases hre : resp.errors with
      | none =>
        cases hru : resp.user with
        | none => simp [Register.action, hg, hc, hce, hbl, hre, hru]
        | some u => simp [Register.action, hg, hc, hce, hbl, hre, hru]
      | some msgs => simp [Register.action, hg, hc, hce, hbl, hre]
  · simp [Register.action, hg, hc, hce, hb, hm]
  · simp [Register.action, hg, hc, hce, hb, he, hu]

/-- C4 witness: a duplicate-email style createAccount failure surfaces
its message with no startSession call. -/
theorem c4_register_flow_witness :
    Register.action jsShowOpt ⟨some "a@b.com", some "123456", some "Jane", some "Doe"⟩
        { throwingBackend with create := .ok ⟨some ["email already registered"]⟩ }
      = (.err (some "email already registered"),
         [.createAccount "a@b.com" "123456" "Jane" "Doe"]) :=
  (c4_register_flow jsShowOpt ⟨some "a@b.com", some "123456", some "Jane", some "Doe"⟩
      { throwingBackend with create := .ok ⟨some ["email already registered"]⟩ }
      ⟨"a@b.com", "123456", "Jane", "Doe"⟩ (by decide)).1
    ⟨some ["email already registered"]⟩ ["email already registered"] rfl rfl

/-- C5: the claim states that a successful login sets a cookie named
`session-token`.  This fails: at a concrete accepted login the action's
Set-Cookie directive names `payload-token`. -/
theorem c5_counterexample :
    ActionResult.setCookieHeader
        (Login.action jsShowOpt ⟨some "a@b.com", some "123456"⟩
          { throwingBackend with
            login := .ok ⟨none, some sampleUser, some "tok123",
              some "Thu, 01 Jan 2026 00:00:00 GMT"⟩ }).1
      = some "payload-token=tok123; path=/; expires=Thu, 01 Jan 2026 00:00:00 GMT" ∧
    cookieNameOfDirective
        "payload-token=tok123; path=/; expires=Thu, 01 Jan 2026 00:00:00 GMT"
      = "payload-token" ∧
    ("payload-token" : String) ≠ "session-token" := by
  refine ⟨by decide, by decide, by decide⟩

/-- C5 (amended): for every login submission whose credentials the
backend accepts, the response carries a session cookie named
`payload-token` with path `/` whose expiry attribute is the code's UTC
rendering of the backend-supplied token expiry, together with a redirect
to the home page. -/
theorem c5_login_success (fmt : Option String → String) (f : LoginForm) (b : Backend)
    (creds : Credentials) (resp : LoginResp) (tok : String) (u : User)
    (hf : LoginSchema.safeParse f = some creds) (hb : b.login = .ok resp)
    (he : resp.errors = none) (hu : resp.user = some u) (ht : resp.token = some tok) :
    Login.action fmt f b
      = (.redirect "/"
           (some ("payload-token=" ++ tok ++ "; path=/; expires=" ++ fmt resp.expires)),
         [.startSession creds.email creds.password]) := by
  simp [Login.action, hf, hb, he, hu, ht, sessionCookieDirective, jsShowOpt]

/-- C5 witness: the accepted login at a concrete backend. -/
theorem c5_login_success_witness :
    Login.action jsShowOpt ⟨some "a@b.com", some "123456"⟩
        { throwingBackend with
          login := .ok ⟨none, some sampleUser, some "tok123",
            some "Thu, 01 Jan 2026 00:00:00 GMT"⟩ }
      = (.redirect "/"
           (some ("payload-token=" ++ "tok123" ++ "; path=/; expires="
              ++ jsShowOpt (some "Thu, 01 Jan 2026 00:00:00 GMT"))),
         [.startSession "a@b.com" "123456"]) :=
  c5_login_success jsShowOpt ⟨some "a@b.com", some "123456"⟩
    { throwingBackend with
      login := .ok ⟨none, some sampleUser, some "tok123",
        some "Thu, 01 Jan 2026 00:00:00 GMT"⟩ }
    ⟨"a@b.com", "123456"⟩ ⟨none, some sampleUser, some "tok123",
      some "Thu, 01 Jan 2026 00:00:00 GMT"⟩ "tok123" sampleUser
    (by decide) rfl rfl rfl rfl

/-- C6: a request to the login or register page whose cookie resolves to
a user is answered by a redirect to the home page; the loader issues
only the identity resolution call and renders no form. -/
theorem c6_authenticated_redirect (b : Backend) (u : User) (h : b.me = .ok (some u)) :
    Login.loader b = (.redirect "/", [.resolveCurrentUser]) ∧
    Register.loader b = (.redirect "/", [.resolveCurrentUser]) := by
  constructor <;> simp [Login.loader, Register.loader, h]

/-- C6 witness. -/
theorem c6_authenticated_redirect_witness :
    Login.loader { throwingBackend with me := .ok (some sampleUser) }
      = (.redirect "/", [.resolveCurrentUser]) :=
  (c6_authenticated_redirect { throwingBackend with me := .ok (some sampleUser) }
    sampleUser rfl).1

/-- C7: a request to the home page whose cookie does not resolve to a
user is answered by a redirect to `/login`, and the user-listing request
is not issued. -/
theorem c7_anonymous_home_redirect (b : Backend) (h : b.me = .ok none) :
    Home.loader b = (.redirect "/login", [.resolveCurrentUser]) ∧
    GatewayCall.listUsers ∉ (Home.loader b).2 := by
  have h1 : Home.loader b = (.redirect "/login", [.resolveCurrentUser]) := by
    simp [Home.loader, h]
  refine ⟨h1, ?_⟩
  rw [h1]
  decide

/-- C7 witness. -/
theorem c7_anonymous_home_redirect_witness :
    Home.loader { throwingBackend with me := .ok none }
      = (.redirect "/login", [.resolveCurrentUser]) :=
  (c7_anonymous_home_redirect { throwingBackend with me := .ok none } rfl).1

/-- C8: every credential input whose password is shorter than 6
characters is rejected by both the login and the register action with
the generic validation error, and no gateway call is made (the trace is
empty). -/
theorem c8_short_password (fmt : Option String → String) (f : LoginForm) (g : RegisterForm)
    (b : Backend) (p q : String)
    (hp : f.password = some p) (hplen : p.length < 6)
    (hq : g.password = some q) (hqlen : q.length < 6) :
    Login.action fmt f b = (.err (some "Invalid form data"), []) ∧
    Register.action fmt g b = (.err (some "Invalid form data"), []) := by
  have hpp : parsePasswordField f.password = none := by
    rw [hp]
    simp [parsePasswordField, Nat.not_le.mpr hplen]
  have hqq : parsePasswordField g.password = none := by
    rw [hq]
    simp [parsePasswordField, Nat.not_le.mpr hqlen]
  have hl : LoginSchema.safeParse f = none := by
    rcases hE : parseEmailField f.email with _ | e <;>
      simp [LoginSchema.safeParse, hE, hpp]
  have hr : RegisterSchema.safeParse g = none := by
    rcases hE : parseEmailField g.email with _ | e <;>
      simp [RegisterSchema.safeParse, hE, hqq]
  exact ⟨by simp [Login.action, hl], by simp [Register.action, hr]⟩

/-- C8 witness: a five-character password is rejected with no backend
call by both actions. -/
theorem c8_short_password_witness :
    Login.action jsShowOpt ⟨some "a@b.com", some "12345"⟩ throwingBackend
        = (.err (some "Invalid form data"), []) ∧
    Register.action jsShowOpt ⟨some "a@b.com", some "12345", some "Jane", some "Doe"⟩
        throwingBackend
        = (.err (some "Invalid form data"), []) :=
  c8_short_password jsShowOpt ⟨some "a@b.com", some "12345"⟩
    ⟨some "a@b.com", some "12345", some "Jane", some "Doe"⟩ throwingBackend
    "12345" "12345" rfl (by decide) rfl (by decide)

/-- C10: when the backend body for a well-formed login or register
submission carries neither an `errors` nor a `user` field, the action
falls through and returns `undefined`: no error object, no redirect, no
cookie. -/
theorem c10_neither_errors_nor_user (fmt : Option String → String)
    (f : LoginForm) (g : RegisterForm) (b : Backend) (resp : LoginResp) (cresp : CreateResp)
    (hb : b.login = .ok resp) (he : resp.errors = none) (hu : resp.user = none)
    (hf : LoginSchema.safeParse f ≠ none)
    (hc : b.create = .ok cresp) (hce : cresp.errors = none)
    (hg : RegisterSchema.safeParse g ≠ none) :
    (Login.action fmt f b).1 = .undef ∧ (Register.action fmt g b).1 = .undef ∧
    ActionResult.setCookieHeader .undef = none := by
  refine ⟨?_, ?_, rfl⟩
  · rcases hP : LoginSchema.safeParse f with _ | creds
    · exact absurd hP hf
    · simp [Login.action, hP, hb, he, hu]
  · rcases hP : RegisterSchema.safeParse g with _ | r
    · exact absurd hP hg
    · simp [Register.action, hP, hb, hc, hce, he, hu]

/-- C10 witness: a backend body with neither field at concrete forms. -/
theorem c10_neither_errors_nor_user_witness :
    (Login.action jsShowOpt ⟨some "a@b.com", some "123456"⟩
        { throwingBackend with
          login := .ok ⟨none, none, none, none⟩
          create := .ok ⟨none⟩ }).1
      = .undef :=
  (c10_neither_errors_nor_user jsShowOpt ⟨some "a@b.com", some "123456"⟩
    ⟨some "a@b.com", some "123456", some "Jane", some "Doe"⟩
    { throwingBackend with
      login := .ok ⟨none, none, none, none⟩
      create := .ok ⟨none⟩ }
    ⟨none, none, none, none⟩ ⟨none⟩ rfl rfl rfl (by decide) rfl rfl (by decide)).1
